import Mathlib

/-!
Verification of the schema-variant TSV decoder in
`src/lhotse/recipes/uniphore_dev.py`.

The Python source is shallowly embedded: pure helpers become Lean
functions, fallible code returns `Except`, file-system collaborators are
passed in as explicit arguments, and Python floats are modelled by `ℚ`
(all time values appearing in the corpus are exact decimal fractions).
-/

namespace UniphoreDev

/-- Membership in Python `string.punctuation`, which is exactly the ASCII
punctuation characters: codepoints 33 to 47, 58 to 64, 91 to 96 and 123 to 126. -/
def isPythonPunct (c : Char) : Bool :=
  (33 ≤ c.toNat && c.toNat ≤ 47) || (58 ≤ c.toNat && c.toNat ≤ 64) ||
  (91 ≤ c.toNat && c.toNat ≤ 96) || (123 ≤ c.toNat && c.toNat ≤ 126)

/-- Embeds `normalize` (source lines 51 to 56): first delete every
character of `string.punctuation` (via `str.translate`), then lowercase
(`str.lower`; the corpus is en-us, so the ASCII case map of
`Char.toLower` coincides with the Python case map on this data). -/
def normalize (text : String) : String :=
  String.mk ((text.data.filter (fun c => !isPythonPunct c)).map Char.toLower)

/-- Splitting of a character list at a separator, with the semantics of
Python `str.split(sep)`: the result always has one more part than there
are separator occurrences, so the empty input yields one empty part. -/
def splitChar (sep : Char) : List Char → List (List Char)
  | [] => [[]]
  | c :: cs =>
    match splitChar sep cs with
    | [] => [[c]]
    | h :: t => if c = sep then [] :: h :: t else (c :: h) :: t

/-- ASCII decimal digit test. -/
def isDigitChar (c : Char) : Bool := 48 ≤ c.toNat && c.toNat ≤ 57

/-- Accumulating base-10 value of a digit list. -/
def digitsToNat (acc : Nat) : List Char → Nat
  | [] => acc
  | c :: cs => digitsToNat (acc * 10 + (c.toNat - 48)) cs

/-- Embeds Python `int(s)` on the plain nonnegative digit strings the
time fields carry; other forms (signs, spaces, underscores) are not
produced by the corpus and are mapped to `none` (a `ValueError`). -/
def charsToNat? (cs : List Char) : Option Nat :=
  if !cs.isEmpty && cs.all isDigitChar then some (digitsToNat 0 cs) else none

/-- Embeds Python `float(s)` on the nonnegative decimal literals that the
time fields carry: digits with at most one dot. Forms outside this
fragment (signs, exponents, an empty integer or fraction part) are not
produced by the corpus and are mapped to `none` (a `ValueError`). -/
def parseFloat? (s : List Char) : Option ℚ :=
  match splitChar '.' s with
  | [w] => (charsToNat? w).map (fun n => (n : ℚ))
  | [w, f] =>
    match charsToNat? w, charsToNat? f with
    | some n, some m => some ((n : ℚ) + (m : ℚ) / ((10 : ℚ) ^ f.length))
    | _, _ => none
  | _ => none

/-- Embeds `convert_time` (source lines 70 to 77): split on a colon and
build `timedelta(hours=int(fields[0]), minutes=int(fields[1]),
seconds=float(fields[2]))`, whose `total_seconds` is
`3600 * hours + 60 * minutes + seconds`. Fewer than three fields is an
`IndexError`, an unparsable field a `ValueError`; both are `none` here. -/
def convert_time (time : String) : Option ℚ :=
  match splitChar ':' time.data with
  | f0 :: f1 :: f2 :: _ =>
    match charsToNat? f0, charsToNat? f1, parseFloat? f2 with
    | some h, some m, some s => some (3600 * (h : ℚ) + 60 * (m : ℚ) + s)
    | _, _, _ => none
  | _ => none

/-- Embeds `convert_duration` (source lines 80 to 85): split on a colon
and build `timedelta(hours=0, minutes=0, seconds=float(fields[2]))`; only
the third field is read. -/
def convert_duration (time : String) : Option ℚ :=
  match splitChar ':' time.data with
  | _ :: _ :: f2 :: _ => parseFloat? f2
  | _ => none

/-- Error taxonomy of the decoder, with the names of spec section 7: the
channel assertion of source lines 189 to 192 is `ChannelValueError`, a
row narrower than the layout is a Python `IndexError`, and an unparsable
numeric time field is a Python `ValueError`. -/
inductive DecodeError where
  | channelValueError (got : String)
  | indexError
  | valueError
deriving DecidableEq, Repr

/-- Embeds the Python indexing `line[i]`, which raises `IndexError` when
the row is narrower than the accessed column. -/
def getIdx (row : List String) (i : Nat) : Except DecodeError String :=
  match row[i]? with
  | some v => Except.ok v
  | none => Except.error DecodeError.indexError

/-- Lifts a failed time conversion (a Python `ValueError` inside
`int` or `float`) into the decoder. -/
def liftTime (o : Option ℚ) : Except DecodeError ℚ :=
  match o with
  | some q => Except.ok q
  | none => Except.error DecodeError.valueError

/-- The column-index mapping of one layout family: the `TSV_*` constants
of the source (module lines 28 to 48 and the two branches at lines 138
to 181), gathered into one immutable value per family. -/
structure SchemaLayout where
  transcription_id : Nat
  channel : Nat
  begin_time : Nat
  end_time : Nat
  transcript : Nat
  duration : Nat
  recording_id : Nat
  left_id : Nat
  left_gender : Nat
  left_age : Nat
  left_country : Nat
  left_accent : Nat
  left_role : Nat
  right_id : Nat
  right_gender : Nat
  right_age : Nat
  right_country : Nat
  right_accent : Nat
  right_role : Nat
deriving DecidableEq, Repr

/-- Layout A, the `subset.startswith("AFI")` branch (source lines 138 to
158): transcription id 0, channel 1, begin 2, end 3, transcript 4,
duration 5, recording id 6; left speaker id 15, gender 16, age 17,
living country 18, accent 19, role 12; right speaker id 20, gender 21,
age 22, living country 23, accent 24, role 13. -/
def layoutA : SchemaLayout :=
  ⟨0, 1, 2, 3, 4, 5, 6, 15, 16, 17, 18, 19, 12, 20, 21, 22, 23, 24, 13⟩

/-- Layout B, the default branch (source lines 159 to 181):
transcription id 0, channel 1, begin 3, end 4, transcript 6, duration 5,
recording id 7; left speaker id 13, gender 17, age 16, living country
18, accent 19, role 15; right speaker id 20, gender 24, age 23, living
country 25, accent 26, role 22. -/
def layoutB : SchemaLayout :=
  ⟨0, 1, 3, 4, 6, 5, 7, 13, 17, 16, 18, 19, 15, 20, 24, 23, 25, 26, 22⟩

/-- `TSV_LEFTCHANNELNATIVE` of the default branch (source line 167);
bound there but read nowhere in the loop body. -/
def TSV_LEFTCHANNELNATIVE_B : Nat := 14

/-- `TSV_RIGHTCHANNELNATIVE` of the default branch (source line 175);
bound there but read nowhere in the loop body. -/
def TSV_RIGHTCHANNELNATIVE_B : Nat := 21

/-- The schema dispatch of source line 138: the `AFI` prefix family gets
layout A, every other subset identifier falls to the default branch and
gets layout B. -/
def resolveLayout (subset : String) : SchemaLayout :=
  if "AFI".data.isPrefixOf subset.data then layoutA else layoutB

/-- The prefix family of layout A (spec section 4.1): the identifiers
the dispatch of source line 138 sends to the `AFI` branch. -/
def matchesFamilyA (subset : String) : Bool :=
  "AFI".data.isPrefixOf subset.data

/-- The default family of layout B: every identifier the dispatch does
not send to the `AFI` branch. -/
def matchesFamilyB (subset : String) : Bool :=
  ! matchesFamilyA subset

/-- The output record (the `SupervisionSegment` constructed at source
lines 209 to 225). `custom` is the open attribute map, kept in the
insertion order of the Python dict literal. -/
structure SupervisionSegment where
  id : String
  recording_id : String
  start : ℚ
  duration : ℚ
  channel : Int
  language : String
  text : String
  speaker : String
  gender : String
  custom : List (String × String)
deriving DecidableEq, Repr

/-- Embeds `int(line[TSV_CHANNEL]) - 1` of source line 214. The channel
string has already passed the assert, so it is a plain digit string and
the `int` call cannot fail; `getD 0` fills the unreachable branch. -/
def channelIndex (channel : String) : Int :=
  ((charsToNat? channel.data).getD 0 : Int) - 1

/-- One arm of the channel branch at source lines 194 to 207: read the
six speaker attributes of one channel block, in source order
(id, gender, age, living country, accent, role). -/
def readSpeaker (row : List String) (idI gI aI cI accI rI : Nat) :
    Except DecodeError (String × String × String × String × String × String) :=
  Except.bind (getIdx row idI) fun speaker_id =>
  Except.bind (getIdx row gI) fun speaker_gender =>
  Except.bind (getIdx row aI) fun speaker_age =>
  Except.bind (getIdx row cI) fun speaker_living_country =>
  Except.bind (getIdx row accI) fun speaker_accent =>
  Except.bind (getIdx row rI) fun speaker_role =>
  Except.ok (speaker_id, speaker_gender, speaker_age,
    speaker_living_country, speaker_accent, speaker_role)

/-- Embeds one iteration of the row loop (source lines 183 to 226), in
source evaluation order: read and optionally normalize the transcript,
read and assert the channel, select the speaker block of that channel,
then build the `SupervisionSegment` (whose keyword arguments evaluate in
order: id, recording id, start, duration, channel, language, text,
speaker, gender, custom). -/
def decodeRow (layout : SchemaLayout) (normalize_text : Bool) (row : List String) :
    Except DecodeError SupervisionSegment :=
  Except.bind (getIdx row layout.transcript) fun rawText =>
  let text := if normalize_text then normalize rawText else rawText
  Except.bind (getIdx row layout.channel) fun channel =>
  if channel = "1" ∨ channel = "2" then
    Except.bind
      (if channel = "1" then
        readSpeaker row layout.left_id layout.left_gender layout.left_age
          layout.left_country layout.left_accent layout.left_role
      else
        readSpeaker row layout.right_id layout.right_gender layout.right_age
          layout.right_country layout.right_accent layout.right_role)
      fun spk =>
    Except.bind (getIdx row layout.transcription_id) fun tid =>
    Except.bind (getIdx row layout.recording_id) fun rec_id =>
    Except.bind (getIdx row layout.begin_time) fun bt =>
    Except.bind (liftTime (convert_time bt)) fun start =>
    Except.bind (getIdx row layout.duration) fun dur =>
    Except.bind (liftTime (convert_duration dur)) fun dura =>
    match spk with
    | (speaker_id, speaker_gender, speaker_age,
       speaker_living_country, speaker_accent, speaker_role) =>
      Except.ok ⟨tid, rec_id, start, dura, channelIndex channel, "en-us", text,
        speaker_id, speaker_gender,
        [("accent", speaker_accent), ("role", speaker_role),
         ("living_country", speaker_living_country), ("age", speaker_age)]⟩
  else
    Except.error (DecodeError.channelValueError channel)

/-- The fixed subset tuple `DEV_SUBSETS` (source lines 21 to 25). -/
def DEV_SUBSETS : List String :=
  ["AFI_en-us_multi-spontaneous_healthcare-retail_v01_Dataset",
   "JPT_en-us_multi-spontaneous_banking_v01_Dataset_1_Dataset",
   "JPT_en-us_multi-spontaneous_insurance_v01_Dataset_1_Dataset"]

/-- The ASCII whitespace removed by Python `str.strip()`:
space and the codepoints 9 to 13. -/
def isPySpace (c : Char) : Bool :=
  c.toNat = 32 || (9 ≤ c.toNat && c.toNat ≤ 13)

/-- Embeds `str.strip()` on a character list. -/
def pyStrip (cs : List Char) : List Char :=
  ((cs.dropWhile isPySpace).reverse.dropWhile isPySpace).reverse

/-- Embeds `parse_tsv_file` (source lines 59 to 67) on the list of lines
of the file: skip the header line, then strip each remaining line and
split it on tabs. -/
def parse_tsv_file (fileLines : List String) : List (List String) :=
  match fileLines with
  | [] => []
  | _header :: rest =>
    rest.map (fun l => (splitChar '\t' (pyStrip l.data)).map String.mk)

/-- One audio file found by the discovery collaborator, together with
the metadata the probing collaborator reports for it (spec sections 3
and 6): its path, duration in seconds and channel count. The sample
rate is probed too but read by nothing this development touches. -/
structure AudioFile where
  path : String
  duration : ℚ
  channels : Nat
deriving DecidableEq, Repr

/-- One audio asset of the manifest (spec section 3, RecordingEntry): a
stable identifier plus the probed duration and channel count that the
validation collaborator reads; the addressing fields (path, sample
rate) take part in no claim. -/
structure Recording where
  id : String
  duration : ℚ
  channels : Nat
deriving DecidableEq, Repr

/-- The file name of a path without its directory part and final
extension. -/
def fileStem (p : String) : String :=
  let base := (splitChar '/' p.data).getLastD []
  let parts := splitChar '.' base
  if parts.length ≤ 1 then String.mk base
  else String.mk (List.intercalate ['.'] parts.dropLast)

/-- Modelled from the spec: `Recording.from_file` (source line 129) is
code of this repository that is not under `src/`. Spec section 3 says a
RecordingEntry carries a stable identifier derived from the filename,
which for this corpus is the file name without directory and extension,
plus the duration and channel count that the audio probing collaborator
reports for the file. -/
def recordingFromFile (f : AudioFile) : Recording :=
  ⟨fileStem f.path, f.duration, f.channels⟩

/-- Errors of the per-subset pipeline: a row decode failure, or the
`CrossValidationError` of the validation collaborator (spec section 7). -/
inductive ProcError where
  | rowError (e : DecodeError)
  | crossValidationError
deriving DecidableEq, Repr

/-- The row loop of source lines 183 to 226: decode every transcript row
in order; a failing row aborts the subset, since its Python exception
propagates out of the loop. -/
def decodeAll (layout : SchemaLayout) (normalize_text : Bool) :
    List (List String) → Except DecodeError (List SupervisionSegment)
  | [] => Except.ok []
  | r :: rs =>
    match decodeRow layout normalize_text r with
    | Except.error e => Except.error e
    | Except.ok s =>
      match decodeAll layout normalize_text rs with
      | Except.error e => Except.error e
      | Except.ok ss => Except.ok (s :: ss)

/-- Modelled from the spec: `validate_recordings_and_supervisions`
(called at source line 229) is code of this repository that is not under
`src/`. Spec sections 3 and 6: the validation collaborator confirms
referential and structural consistency of the pair and raises on a
violation. The conditions it enforces are that the recording ids and
the supervision ids are each free of duplicates (so a referenced id
resolves to exactly one recording), and that every supervision resolves
to a recording of the collection within which it fits: start at least
zero, duration positive, start plus duration at most the recording
duration, and the zero-based channel index one of the recording
channels. With the single error the taxonomy gives this collaborator,
raising on the first violation found and failing whenever some
violation exists are the same function. -/
def validate_recordings_and_supervisions
    (recordings : List Recording) (supervisions : List SupervisionSegment) :
    Except ProcError Unit :=
  if ((recordings.map Recording.id).Nodup ∧
      (supervisions.map SupervisionSegment.id).Nodup ∧
      ∀ s ∈ supervisions, ∃ r ∈ recordings, r.id = s.recording_id ∧
        0 ≤ s.start ∧ 0 < s.duration ∧ s.start + s.duration ≤ r.duration ∧
        0 ≤ s.channel ∧ s.channel < (r.channels : Int))
  then Except.ok () else Except.error ProcError.crossValidationError

/-- The per-subset manifest pair (spec section 3). -/
structure SubsetManifests where
  recordings : List Recording
  supervisions : List SupervisionSegment
deriving DecidableEq, Repr

/-- The recording collection of one subset (source lines 125 to 130):
sort the discovered audio files by path (`audio_files.sort()`; a stable
sort, modelled by insertion sort, which computes the same list), then
build one entry per file. -/
def recordingSetOf (audioFiles : List AudioFile) : List Recording :=
  (List.insertionSort (fun a b => a.path ≤ b.path) audioFiles).map recordingFromFile

/-- The supervision manifest file name written at source lines 231
to 233. -/
def supervisionsFileName (subset : String) : String :=
  "uniphore_supervisions_" ++ subset ++ ".jsonl.gz"

/-- The recording manifest file name written at source line 234. -/
def recordingsFileName (subset : String) : String :=
  "uniphore_recordings_" ++ subset ++ ".jsonl.gz"

/-- One iteration of the subset loop (source lines 121 to 239), with the
file system abstracted: `audioFiles` is what the glob of line 125 found
and `transcript` the parsed rows of `combined.tsv`. Steps in source
order: build the sorted recording collection, resolve the layout, decode
every row, cross-validate, and only then write the two manifest files;
the returned list holds the files this subset wrote, in write order
(supervisions first). -/
def processSubset (subset : String) (audioFiles : List AudioFile)
    (transcript : List (List String)) (normalize_text : Bool) :
    Except ProcError (SubsetManifests × List String) :=
  let recording_set := recordingSetOf audioFiles
  let layout := resolveLayout subset
  match decodeAll layout normalize_text transcript with
  | Except.error e => Except.error (ProcError.rowError e)
  | Except.ok supervision_set =>
    match validate_recordings_and_supervisions recording_set supervision_set with
    | Except.error e => Except.error e
    | Except.ok _ =>
      Except.ok (⟨recording_set, supervision_set⟩,
        [supervisionsFileName subset, recordingsFileName subset])

/-- The subset loop of `prepare_uniphore_dev`: the Python `for` has no
exception handler, so a failing subset aborts the whole call, while
files written by earlier subsets stay written. The first component
collects every file written before the run ended, the second is the
returned manifest dictionary (as an ordered association list) or the
propagated exception. -/
def runSubsets (audio : String → List AudioFile) (tsv : String → List String)
    (normalize_text : Bool) :
    List String → List String × Except ProcError (List (String × SubsetManifests))
  | [] => ([], Except.ok [])
  | s :: rest =>
    match processSubset s (audio s) (parse_tsv_file (tsv s)) normalize_text with
    | Except.error e => ([], Except.error e)
    | Except.ok (m, files) =>
      match runSubsets audio tsv normalize_text rest with
      | (fs, Except.error e) => (files ++ fs, Except.error e)
      | (fs, Except.ok ms) => (files ++ fs, Except.ok ((s, m) :: ms))

/-- Embeds `prepare_uniphore_dev` (source lines 88 to 241) over the
abstracted file system: `audio subset` lists the `Audio/*.wav` files of
that subset and `tsv subset` gives the lines of its `combined.tsv`. -/
def prepare_uniphore_dev (audio : String → List AudioFile)
    (tsv : String → List String) (normalize_text : Bool) :
    List String × Except ProcError (List (String × SubsetManifests)) :=
  runSubsets audio tsv normalize_text DEV_SUBSETS

/-- The files a subset run left on disk: the write list of a completed
run, nothing for a run that raised before its writes. -/
def writtenFiles (r : Except ProcError (SubsetManifests × List String)) : List String :=
  match r with
  | Except.ok (_, fs) => fs
  | Except.error _ => []

/-- A rational given as a plain natural number, the shape `float` takes
on a fraction-free seconds field. -/
def natQ (n : Nat) : ℚ := (n : ℚ)

/-- Total seconds of an hour, minute, second triple, the shape
`timedelta.total_seconds` takes on whole-second inputs. -/
def hmsQ (h m s : Nat) : ℚ := 3600 * (h : ℚ) + 60 * (m : ℚ) + (s : ℚ)

/-- The logical content of one transcript row: the per-field values
independent of which layout family positions them. -/
structure LogicalRow where
  tid : String
  ch : String
  bt : String
  et : String
  tx : String
  dur : String
  rid : String
  l_id : String
  l_g : String
  l_a : String
  l_c : String
  l_acc : String
  l_r : String
  r_id : String
  r_g : String
  r_a : String
  r_c : String
  r_acc : String
  r_r : String

/-- A 25-column raw row carrying the given logical content at the column
positions of layout A, with `filler` in every column no layout A field
reads. -/
def rowOfA (v : LogicalRow) (filler : String) : List String :=
  [v.tid, v.ch, v.bt, v.et, v.tx, v.dur, v.rid, filler, filler, filler, filler, filler,
   v.l_r, v.r_r, filler, v.l_id, v.l_g, v.l_a, v.l_c, v.l_acc,
   v.r_id, v.r_g, v.r_a, v.r_c, v.r_acc]

/-- A 27-column raw row carrying the same logical content at the column
positions of layout B, with the per-channel native columns filled by
`nativeL` and `nativeR` and `filler` elsewhere. -/
def rowOfB (v : LogicalRow) (filler nativeL nativeR : String) : List String :=
  [v.tid, v.ch, filler, v.bt, v.et, v.dur, v.tx, v.rid, filler, filler, filler, filler, filler,
   v.l_id, nativeL, v.l_r, v.l_a, v.l_g, v.l_c, v.l_acc,
   v.r_id, nativeR, v.r_r, v.r_a, v.r_g, v.r_c, v.r_acc]

/-- A concrete well-formed layout A row used to instantiate the
conditional theorems: channel 1, begin 0:0:0, duration 0:0:1. -/
def rowW : List String :=
  ["utt1", "1", "0:0:0", "0:0:1", "hello", "0:0:1", "rec1", "f", "f", "f", "f", "f",
   "agent", "client", "f", "spk1", "m", "30", "US", "southern", "spk2", "f2", "40", "UK", "none"]

/-- The record `decodeRow layoutA false rowW` produces. -/
def segW : SupervisionSegment :=
  ⟨"utt1", "rec1", hmsQ 0 0 0, natQ 1, 0, "en-us", "hello", "spk1", "m",
   [("accent", "southern"), ("role", "agent"), ("living_country", "US"), ("age", "30")]⟩

/-- A concrete layout A row whose channel field is neither 1 nor 2. -/
def rowBad : List String :=
  ["utt9", "3", "0:0:0", "0:0:1", "text", "0:0:1", "rec9"]

/-- An audio collaborator with no files in any subset. -/
def audioNone : String → List AudioFile := fun _ => []

/-- A one-second two-channel audio file whose stem `a` matches no
transcript row of the witnesses. -/
def audioMismatch : AudioFile := ⟨"a.wav", 1, 2⟩

/-- A one-second two-channel audio file whose stem `rec1` is exactly
what the row `rowW` references. -/
def audioMatch : AudioFile := ⟨"rec1.wav", 1, 2⟩

/-- A transcript collaborator giving the first dev subset one header line
and one row with the invalid channel 3, and every other subset an empty
table (header only). -/
def tsvFirstBad : String → List String := fun s =>
  if s = "AFI_en-us_multi-spontaneous_healthcare-retail_v01_Dataset" then
    ["header", "utt9\t3\t0:0:0\t0:0:1\ttext\t0:0:1\trec9"]
  else ["header"]

/-- The example sentence of the normalization property, built with an
explicit apostrophe character (codepoint 39) between the em-dash segment
and the final word group. -/
def c4Input : String :=
  "Hello, World! — it" ++ String.singleton (Char.ofNat 39) ++ "s fine."

end UniphoreDev

namespace UniphoreDev

/-! Helper lemmas. -/

theorem except_bind_ok {ε α β : Type} {x : Except ε α} {f : α → Except ε β} {b : β} :
    Except.bind x f = Except.ok b ↔ ∃ a, x = Except.ok a ∧ f a = Except.ok b := by
  cases x <;> simp [Except.bind]

theorem getIdx_ok_iff {row : List String} {i : Nat} {v : String} :
    getIdx row i = Except.ok v ↔ row[i]? = some v := by
  unfold getIdx
  cases hx : row[i]? <;> simp

theorem liftTime_ok_iff {o : Option ℚ} {q : ℚ} :
    liftTime o = Except.ok q ↔ o = some q := by
  unfold liftTime
  cases o <;> simp

/-- Inversion of a successful row decode: the channel column held 1 or 2
and determines the stored channel index, the start came from
`convert_time` on the begin column, the duration from `convert_duration`
on the duration column, and the attribute map has exactly the four
canonical keys. -/
theorem decodeRow_ok_inv {layout : SchemaLayout} {norm : Bool} {row : List String}
    {seg : SupervisionSegment} (h : decodeRow layout norm row = Except.ok seg) :
    ∃ c bt du,
      row[layout.channel]? = some c ∧ (c = "1" ∨ c = "2") ∧
      seg.channel = channelIndex c ∧
      row[layout.begin_time]? = some bt ∧ convert_time bt = some seg.start ∧
      row[layout.duration]? = some du ∧ convert_duration du = some seg.duration ∧
      seg.custom.map Prod.fst = ["accent", "role", "living_country", "age"] := by
  unfold decodeRow at h
  rcases except_bind_ok.mp h with ⟨rawText, hT, h⟩
  rcases except_bind_ok.mp h with ⟨c, hC, h⟩
  by_cases hval : c = "1" ∨ c = "2"
  · rw [if_pos hval] at h
    rcases except_bind_ok.mp h with ⟨spk, hSpk, h⟩
    rcases except_bind_ok.mp h with ⟨tid, hTid, h⟩
    rcases except_bind_ok.mp h with ⟨rid, hRid, h⟩
    rcases except_bind_ok.mp h with ⟨bt, hBt, h⟩
    rcases except_bind_ok.mp h with ⟨start, hStart, h⟩
    rcases except_bind_ok.mp h with ⟨du, hDu, h⟩
    rcases except_bind_ok.mp h with ⟨dura, hDura, h⟩
    obtain ⟨sid, sg, sa, sc, sacc, sr⟩ := spk
    injection h with h
    subst h
    exact ⟨c, bt, du, getIdx_ok_iff.mp hC, hval, rfl,
      getIdx_ok_iff.mp hBt, liftTime_ok_iff.mp hStart,
      getIdx_ok_iff.mp hDu, liftTime_ok_iff.mp hDura, rfl⟩
  · rw [if_neg hval] at h
    simp at h

/-- A row whose channel column holds neither 1 nor 2 (and whose
transcript column exists, since the source reads the transcript first)
fails with the channel assertion carrying that value. -/
theorem decodeRow_badChannel {layout : SchemaLayout} {norm : Bool} {row : List String}
    {t c : String} (ht : row[layout.transcript]? = some t)
    (hc : row[layout.channel]? = some c) (h1 : c ≠ "1") (h2 : c ≠ "2") :
    decodeRow layout norm row = Except.error (DecodeError.channelValueError c) := by
  unfold decodeRow
  rw [getIdx_ok_iff.mpr ht]
  show Except.bind _ _ = _
  rw [show (Except.bind (Except.ok t) : (String → Except DecodeError SupervisionSegment) →
      Except DecodeError SupervisionSegment) = fun f => f t from rfl]
  rw [getIdx_ok_iff.mpr hc]
  show Except.bind _ _ = _
  rw [show (Except.bind (Except.ok c) : (String → Except DecodeError SupervisionSegment) →
      Except DecodeError SupervisionSegment) = fun f => f c from rfl]
  simp [h1, h2]

/-- A successful decode of a row list yields one record per row. -/
theorem decodeAll_ok_length {layout : SchemaLayout} {norm : Bool} :
    ∀ {rows : List (List String)} {segs : List SupervisionSegment},
      decodeAll layout norm rows = Except.ok segs → segs.length = rows.length
  | [], _, h => by
    unfold decodeAll at h
    injection h with h
    subst h
    rfl
  | r :: rs, segs, h => by
    unfold decodeAll at h
    cases hr : decodeRow layout norm r with
    | error e => rw [hr] at h; simp at h
    | ok s =>
      rw [hr] at h
      cases hrs : decodeAll layout norm rs with
      | error e => rw [hrs] at h; simp at h
      | ok ss =>
        rw [hrs] at h
        injection h with h
        subst h
        simpa using decodeAll_ok_length hrs

/-- `convert_duration` is a function of the third colon field alone. -/
theorem convert_duration_eq_third (t : String) :
    convert_duration t = ((splitChar ':' t.data)[2]?).elim none parseFloat? := by
  unfold convert_duration
  rcases h : splitChar ':' t.data with _ | ⟨a, _ | ⟨b, _ | ⟨c, rest⟩⟩⟩ <;> simp

/-- The zeta-reduced unfolding of `processSubset`. -/
theorem processSubset_eq (subset : String) (audioFiles : List AudioFile)
    (transcript : List (List String)) (norm : Bool) :
    processSubset subset audioFiles transcript norm =
      match decodeAll (resolveLayout subset) norm transcript with
      | Except.error e => Except.error (ProcError.rowError e)
      | Except.ok supervision_set =>
        match validate_recordings_and_supervisions (recordingSetOf audioFiles)
            supervision_set with
        | Except.error e => Except.error e
        | Except.ok _ =>
          Except.ok (⟨recordingSetOf audioFiles, supervision_set⟩,
            [supervisionsFileName subset, recordingsFileName subset]) := rfl

/-! Claim theorems. -/

/-- C1: `convert_time` reads an HH:MM:SS(.frac) string as total elapsed
seconds (hours times 3600 plus minutes times 60 plus seconds), so
`convert_time "01:02:03.5"` is `3723.5`; `convert_duration` reads only
the seconds component of its string, so `convert_duration "02:10:07.25"`
is `7.25` exactly as `convert_duration "00:00:07.25"` is, whatever the
hours and minutes fields hold; and every decoded record takes its start
from `convert_time` on the begin-time column and its duration from
`convert_duration` on the duration column. -/
theorem C1_time_conversion :
    convert_time "01:02:03.5" = some (3723.5 : ℚ) ∧
    convert_duration "02:10:07.25" = some (7.25 : ℚ) ∧
    convert_duration "00:00:07.25" = some (7.25 : ℚ) ∧
    (∀ t u : String,
      (splitChar ':' t.data)[2]? = (splitChar ':' u.data)[2]? →
      convert_duration t = convert_duration u) ∧
    (∀ (layout : SchemaLayout) (norm : Bool) (row : List String)
        (seg : SupervisionSegment) (bt du : String),
      decodeRow layout norm row = Except.ok seg →
      row[layout.begin_time]? = some bt → row[layout.duration]? = some du →
      convert_time bt = some seg.start ∧ convert_duration du = some seg.duration) := by
  refine ⟨?_, ?_, ?_, ?_, ?_⟩
  · have h : convert_time "01:02:03.5"
        = some (3600 * ((1 : ℕ) : ℚ) + 60 * ((2 : ℕ) : ℚ)
            + (((3 : ℕ) : ℚ) + ((5 : ℕ) : ℚ) / (10 : ℚ) ^ (1 : ℕ))) := rfl
    rw [h]
    norm_num
  · have h : convert_duration "02:10:07.25"
        = some (((7 : ℕ) : ℚ) + ((25 : ℕ) : ℚ) / (10 : ℚ) ^ (2 : ℕ)) := rfl
    rw [h]
    norm_num
  · have h : convert_duration "00:00:07.25"
        = some (((7 : ℕ) : ℚ) + ((25 : ℕ) : ℚ) / (10 : ℚ) ^ (2 : ℕ)) := rfl
    rw [h]
    norm_num
  · intro t u hequ
    rw [convert_duration_eq_third t, convert_duration_eq_third u, hequ]
  · intro layout norm row seg bt du h hbt hdu
    rcases decodeRow_ok_inv h with
      ⟨c, bt2, du2, _, _, _, hbt2, hstart, hdu2, hdura, _⟩
    rw [hbt] at hbt2
    rw [hdu] at hdu2
    injection hbt2 with hbt2
    injection hdu2 with hdu2
    subst hbt2
    subst hdu2
    exact ⟨hstart, hdura⟩

/-- Instantiation of the conditional parts of C1: `convert_duration` at
two strings equal in their third field, and the start and duration of
the record decoded from a concrete row. -/
theorem C1_time_conversion_witness :
    convert_duration "05:09:07.25" = convert_duration "02:10:07.25" ∧
    (convert_time "0:0:0" = some segW.start ∧
     convert_duration "0:0:1" = some segW.duration) :=
  ⟨C1_time_conversion.2.2.2.1 "05:09:07.25" "02:10:07.25" rfl,
   C1_time_conversion.2.2.2.2 layoutA false rowW segW "0:0:0" "0:0:1" rfl rfl rfl⟩

/-- C3 counterexample: layout B is not a constant +1 shift of layout A
from column 3 onward, because the duration column does not move
(both layouts put it at 5) and the transcript column moves by two
(4 in layout A, 6 in layout B). -/
theorem C3_counterexample :
    ¬ (layoutB.transcript = layoutA.transcript + 1) ∧
    ¬ (layoutB.duration = layoutA.duration + 1) ∧
    layoutB.transcript = 6 ∧ layoutA.transcript = 4 ∧
    layoutB.duration = 5 ∧ layoutA.duration = 5 := by
  decide

/-- C3 amended: every subset identifier outside the prefix family is
decoded under layout B; relative to layout A, layout B shifts the begin
time, end time and recording id columns by +1 (begin 3, end 4,
recording id 7), keeps the duration column at 5, moves the transcript
column by +2 to 6, and adds a per-channel native column, with the
speaker blocks at id 13/20, native 14/21, role 15/22, age 16/23,
gender 17/24, country 18/25, accent 19/26. -/
theorem C3_layoutB_shape :
    (∀ subset : String, matchesFamilyA subset = false → resolveLayout subset = layoutB) ∧
    layoutB.begin_time = layoutA.begin_time + 1 ∧ layoutB.begin_time = 3 ∧
    layoutB.end_time = layoutA.end_time + 1 ∧ layoutB.end_time = 4 ∧
    layoutB.recording_id = layoutA.recording_id + 1 ∧ layoutB.recording_id = 7 ∧
    layoutB.duration = layoutA.duration ∧ layoutB.duration = 5 ∧
    layoutB.transcript = layoutA.transcript + 2 ∧ layoutB.transcript = 6 ∧
    layoutB.left_id = 13 ∧ TSV_LEFTCHANNELNATIVE_B = 14 ∧ layoutB.left_role = 15 ∧
    layoutB.left_age = 16 ∧ layoutB.left_gender = 17 ∧ layoutB.left_country = 18 ∧
    layoutB.left_accent = 19 ∧
    layoutB.right_id = 20 ∧ TSV_RIGHTCHANNELNATIVE_B = 21 ∧ layoutB.right_role = 22 ∧
    layoutB.right_age = 23 ∧ layoutB.right_gender = 24 ∧ layoutB.right_country = 25 ∧
    layoutB.right_accent = 26 := by
  refine ⟨?_, ?_⟩
  · intro subset h
    unfold resolveLayout
    rw [show ("AFI".data.isPrefixOf subset.data) = false from h]
    rfl
  · decide

/-- Instantiation of the conditional part of C3 amended: a subset of the
default family resolves to layout B. -/
theorem C3_layoutB_shape_witness :
    resolveLayout "JPT_en-us_multi-spontaneous_banking_v01_Dataset_1_Dataset" = layoutB :=
  C3_layoutB_shape.1 "JPT_en-us_multi-spontaneous_banking_v01_Dataset_1_Dataset" rfl

/-- C5: no subset identifier matches neither layout family, because the
default family of layout B is the complement of the prefix family, so
the resolution error of the spec is unreachable; resolution is total and
every subset is decoded under one of the two defined layouts. -/
theorem C5_resolution_total :
    ∀ subset : String,
      (matchesFamilyA subset = true ∨ matchesFamilyB subset = true) ∧
      ¬ (matchesFamilyA subset = false ∧ matchesFamilyB subset = false) ∧
      (matchesFamilyA subset = true → resolveLayout subset = layoutA) ∧
      (matchesFamilyB subset = true → resolveLayout subset = layoutB) := by
  intro subset
  refine ⟨?_, ?_, ?_, ?_⟩
  · unfold matchesFamilyB
    cases h : matchesFamilyA subset
    · right; rfl
    · left; rfl
  · rintro ⟨h1, h2⟩
    unfold matchesFamilyB at h2
    rw [h1] at h2
    cases h2
  · intro h
    unfold resolveLayout
    rw [show ("AFI".data.isPrefixOf subset.data) = true from h]
    rfl
  · intro h
    unfold matchesFamilyB matchesFamilyA at h
    unfold resolveLayout
    cases hA : "AFI".data.isPrefixOf subset.data
    · rfl
    · rw [hA] at h
      cases h

/-- Instantiation of the conditional parts of C5: the prefix family
member resolves to layout A, a default family member to layout B. -/
theorem C5_resolution_total_witness :
    resolveLayout "AFI_en-us_multi-spontaneous_healthcare-retail_v01_Dataset" = layoutA ∧
    resolveLayout "JPT_en-us_multi-spontaneous_banking_v01_Dataset_1_Dataset" = layoutB :=
  ⟨(C5_resolution_total "AFI_en-us_multi-spontaneous_healthcare-retail_v01_Dataset").2.2.1 rfl,
   (C5_resolution_total "JPT_en-us_multi-spontaneous_banking_v01_Dataset_1_Dataset").2.2.2 rfl⟩

/-- C9: two rows carrying the same logical content, one laid out at
layout A column positions and one at layout B column positions, decode
to field-for-field identical results under their own layouts, for either
value of the normalize flag and any filler and native values. -/
theorem C9_layout_equivalence :
    ∀ (v : LogicalRow) (filler nativeL nativeR : String) (norm : Bool),
      decodeRow layoutA norm (rowOfA v filler) =
      decodeRow layoutB norm (rowOfB v filler nativeL nativeR) :=
  fun _ _ _ _ _ => rfl

/-- C2: a successfully decoded row had channel column 1 and stored
channel index 0, or channel column 2 and stored channel index 1; a row
whose channel column holds any other value (its transcript column being
readable, since the source reads it first) fails with the channel value
assertion carrying that value, producing no record. -/
theorem C2_channel_mapping :
    (∀ (layout : SchemaLayout) (norm : Bool) (row : List String) (seg : SupervisionSegment),
        decodeRow layout norm row = Except.ok seg →
        (row[layout.channel]? = some "1" ∧ seg.channel = 0) ∨
        (row[layout.channel]? = some "2" ∧ seg.channel = 1)) ∧
    (∀ (layout : SchemaLayout) (norm : Bool) (row : List String) (t c : String),
        row[layout.transcript]? = some t → row[layout.channel]? = some c →
        c ≠ "1" → c ≠ "2" →
        decodeRow layout norm row = Except.error (DecodeError.channelValueError c)) := by
  constructor
  · intro layout norm row seg h
    rcases decodeRow_ok_inv h with ⟨c, bt, du, hc, hval, hch, _⟩
    rcases hval with h1 | h2
    · subst h1
      left
      exact ⟨hc, by rw [hch]; rfl⟩
    · subst h2
      right
      exact ⟨hc, by rw [hch]; rfl⟩
  · intro layout norm row t c ht hc h1 h2
    exact decodeRow_badChannel ht hc h1 h2

/-- Instantiation of C2: a concrete channel 1 row stores index 0, and a
concrete channel 3 row fails with the channel assertion. -/
theorem C2_channel_mapping_witness :
    ((rowW[layoutA.channel]? = some "1" ∧ segW.channel = 0) ∨
     (rowW[layoutA.channel]? = some "2" ∧ segW.channel = 1)) ∧
    decodeRow layoutA false rowBad = Except.error (DecodeError.channelValueError "3") :=
  ⟨C2_channel_mapping.1 layoutA false rowW segW rfl,
   C2_channel_mapping.2 layoutA false rowBad "text" "3" rfl rfl
     (by decide) (by decide)⟩

/-- C4 counterexample: `string.punctuation` holds only ASCII characters,
so the em-dash of the example survives normalization: the result is
"hello world — its fine" with the em-dash kept, not the claimed
"hello world  its fine". -/
theorem C4_counterexample :
    normalize c4Input = "hello world — its fine" ∧
    normalize c4Input ≠ "hello world  its fine" := by
  constructor
  · decide
  · decide

/-- C4 amended: normalization deletes every ASCII punctuation character
(including the ASCII apostrophe, comma, exclamation mark and full stop
of the example) and lowercases the rest, while non-ASCII characters such
as the em-dash are kept, so the example normalizes to
"hello world — its fine"; renormalizing that output changes nothing. -/
theorem C4_normalize_behaviour :
    normalize c4Input = "hello world — its fine" ∧
    normalize (normalize c4Input) = normalize c4Input := by
  constructor
  · decide
  · decide

/-- C10: the attribute map of every decoded record has exactly the four
keys accent, role, living country and age, in that order, under any
layout; and the two native columns of layout B are read by nothing, so
overwriting them with any values leaves the decode of a row unchanged. -/
theorem C10_custom_keys_native_unused :
    (∀ (layout : SchemaLayout) (norm : Bool) (row : List String) (seg : SupervisionSegment),
        decodeRow layout norm row = Except.ok seg →
        seg.custom.map Prod.fst = ["accent", "role", "living_country", "age"]) ∧
    (∀ (row : List String) (v w : String) (norm : Bool),
        decodeRow layoutB norm
            ((row.set TSV_LEFTCHANNELNATIVE_B v).set TSV_RIGHTCHANNELNATIVE_B w) =
          decodeRow layoutB norm row) := by
  constructor
  · intro layout norm row seg h
    rcases decodeRow_ok_inv h with ⟨c, bt, du, _, _, _, _, _, _, _, hkeys⟩
    exact hkeys
  · intro row v w norm
    have hget : ∀ i : Nat, i ≠ 14 → i ≠ 21 →
        getIdx ((row.set 14 v).set 21 w) i = getIdx row i := by
      intro i h14 h21
      unfold getIdx
      rw [List.getElem?_set_ne (fun h => h21 h.symm),
        List.getElem?_set_ne (fun h => h14 h.symm)]
    show decodeRow layoutB norm ((row.set 14 v).set 21 w) = decodeRow layoutB norm row
    unfold decodeRow readSpeaker
    simp only [hget layoutB.transcript (by decide) (by decide),
      hget layoutB.channel (by decide) (by decide),
      hget layoutB.left_id (by decide) (by decide),
      hget layoutB.left_gender (by decide) (by decide),
      hget layoutB.left_age (by decide) (by decide),
      hget layoutB.left_country (by decide) (by decide),
      hget layoutB.left_accent (by decide) (by decide),
      hget layoutB.left_role (by decide) (by decide),
      hget layoutB.right_id (by decide) (by decide),
      hget layoutB.right_gender (by decide) (by decide),
      hget layoutB.right_age (by decide) (by decide),
      hget layoutB.right_country (by decide) (by decide),
      hget layoutB.right_accent (by decide) (by decide),
      hget layoutB.right_role (by decide) (by decide),
      hget layoutB.transcription_id (by decide) (by decide),
      hget layoutB.recording_id (by decide) (by decide),
      hget layoutB.begin_time (by decide) (by decide),
      hget layoutB.duration (by decide) (by decide)]

/-- Instantiation of the conditional part of C10: the concrete decoded
record carries exactly the four canonical attribute keys. -/
theorem C10_custom_keys_native_unused_witness :
    segW.custom.map Prod.fst = ["accent", "role", "living_country", "age"] :=
  C10_custom_keys_native_unused.1 layoutA false rowW segW rfl

/-- C6 counterexample: with the first dev subset carrying one bad row
(channel 3) and every other subset a well-formed empty table, the whole
run raises the channel assertion and writes nothing, although the second
subset alone would process fine and write its two manifest files; so a
malformed subset does prevent another subset from being produced. -/
theorem C6_counterexample :
    prepare_uniphore_dev audioNone tsvFirstBad false =
      ([], Except.error (ProcError.rowError (DecodeError.channelValueError "3"))) ∧
    processSubset "JPT_en-us_multi-spontaneous_banking_v01_Dataset_1_Dataset"
        (audioNone "JPT_en-us_multi-spontaneous_banking_v01_Dataset_1_Dataset")
        (parse_tsv_file
          (tsvFirstBad "JPT_en-us_multi-spontaneous_banking_v01_Dataset_1_Dataset"))
        false =
      Except.ok (⟨[], []⟩,
        [supervisionsFileName "JPT_en-us_multi-spontaneous_banking_v01_Dataset_1_Dataset",
         recordingsFileName "JPT_en-us_multi-spontaneous_banking_v01_Dataset_1_Dataset"]) := by
  constructor
  · rfl
  · rfl

/-- C6 amended: errors are not subset-scoped. The subset loop has no
exception handler, so the first failing subset aborts the entire run:
no later subset is processed and no manifest dictionary is returned,
while a subset that completes before any failure keeps its two written
manifest files. -/
theorem C6_abort_semantics :
    (∀ (audio : String → List AudioFile) (tsv : String → List String) (norm : Bool)
        (s : String) (rest : List String) (e : ProcError),
        processSubset s (audio s) (parse_tsv_file (tsv s)) norm = Except.error e →
        runSubsets audio tsv norm (s :: rest) = ([], Except.error e)) ∧
    (∀ (audio : String → List AudioFile) (tsv : String → List String) (norm : Bool)
        (s : String) (rest : List String) (m : SubsetManifests) (files : List String),
        processSubset s (audio s) (parse_tsv_file (tsv s)) norm = Except.ok (m, files) →
        (runSubsets audio tsv norm (s :: rest)).1 =
          files ++ (runSubsets audio tsv norm rest).1) := by
  constructor
  · intro audio tsv norm s rest e h
    unfold runSubsets
    rw [h]
  · intro audio tsv norm s rest m files h
    show (match processSubset s (audio s) (parse_tsv_file (tsv s)) norm with
      | Except.error e => ([], Except.error e)
      | Except.ok (m, files) =>
        match runSubsets audio tsv norm rest with
        | (fs, Except.error e) => (files ++ fs, Except.error e)
        | (fs, Except.ok ms) => (files ++ fs, Except.ok ((s, m) :: ms))).1 =
      files ++ (runSubsets audio tsv norm rest).1
    rw [h]
    cases hr : runSubsets audio tsv norm rest with
    | mk fs r => cases r <;> rfl

/-- Instantiation of C6 amended: the bad first subset aborts its run,
and a clean subset keeps its write list. -/
theorem C6_abort_semantics_witness :
    runSubsets audioNone tsvFirstBad false
        ["AFI_en-us_multi-spontaneous_healthcare-retail_v01_Dataset",
         "JPT_en-us_multi-spontaneous_banking_v01_Dataset_1_Dataset"] =
      ([], Except.error (ProcError.rowError (DecodeError.channelValueError "3"))) ∧
    (runSubsets audioNone tsvFirstBad false
        ["JPT_en-us_multi-spontaneous_banking_v01_Dataset_1_Dataset"]).1 =
      [supervisionsFileName "JPT_en-us_multi-spontaneous_banking_v01_Dataset_1_Dataset",
       recordingsFileName "JPT_en-us_multi-spontaneous_banking_v01_Dataset_1_Dataset"] ++
        (runSubsets audioNone tsvFirstBad false []).1 :=
  ⟨C6_abort_semantics.1 audioNone tsvFirstBad false
      "AFI_en-us_multi-spontaneous_healthcare-retail_v01_Dataset"
      ["JPT_en-us_multi-spontaneous_banking_v01_Dataset_1_Dataset"]
      (ProcError.rowError (DecodeError.channelValueError "3")) rfl,
   C6_abort_semantics.2 audioNone tsvFirstBad false
      "JPT_en-us_multi-spontaneous_banking_v01_Dataset_1_Dataset" [] ⟨[], []⟩
      [supervisionsFileName "JPT_en-us_multi-spontaneous_banking_v01_Dataset_1_Dataset",
       recordingsFileName "JPT_en-us_multi-spontaneous_banking_v01_Dataset_1_Dataset"] rfl⟩

/-- C7: if some decoded row of a subset references a recording id that
no recording of the subset carries, the subset fails cross-validation
and nothing of it is persisted: validation runs strictly before the two
writes, so the write list of the failed subset is empty. -/
theorem C7_crossvalidation_blocks_writes :
    ∀ (subset : String) (audioFiles : List AudioFile) (transcript : List (List String))
      (norm : Bool) (sups : List SupervisionSegment),
      decodeAll (resolveLayout subset) norm transcript = Except.ok sups →
      (∃ s ∈ sups, ∀ r ∈ recordingSetOf audioFiles, r.id ≠ s.recording_id) →
      processSubset subset audioFiles transcript norm =
        Except.error ProcError.crossValidationError ∧
      writtenFiles (processSubset subset audioFiles transcript norm) = [] := by
  intro subset audioFiles transcript norm sups hdec hbad
  have hnot : ¬ (((recordingSetOf audioFiles).map Recording.id).Nodup ∧
      (sups.map SupervisionSegment.id).Nodup ∧
      ∀ s ∈ sups, ∃ r ∈ recordingSetOf audioFiles, r.id = s.recording_id ∧
        0 ≤ s.start ∧ 0 < s.duration ∧ s.start + s.duration ≤ r.duration ∧
        0 ≤ s.channel ∧ s.channel < (r.channels : Int)) := by
    rintro ⟨-, -, hall⟩
    rcases hbad with ⟨s, hs, hr⟩
    rcases hall s hs with ⟨r, hrmem, heq, -⟩
    exact hr r hrmem heq
  have hval : validate_recordings_and_supervisions (recordingSetOf audioFiles) sups =
      Except.error ProcError.crossValidationError := by
    unfold validate_recordings_and_supervisions
    rw [if_neg hnot]
  have h1 : processSubset subset audioFiles transcript norm =
      match validate_recordings_and_supervisions (recordingSetOf audioFiles) sups with
      | Except.error e => Except.error e
      | Except.ok _ =>
        Except.ok ((⟨recordingSetOf audioFiles, sups⟩ : SubsetManifests),
          [supervisionsFileName subset, recordingsFileName subset]) := by
    rw [processSubset_eq, hdec]
  have hmain : processSubset subset audioFiles transcript norm =
      Except.error ProcError.crossValidationError := by
    rw [h1, hval]
  exact ⟨hmain, by rw [hmain]; rfl⟩

/-- Instantiation of C7: a subset with one audio file `a.wav` and one
row referencing the absent recording rec1 fails cross-validation and
writes nothing. -/
theorem C7_crossvalidation_blocks_writes_witness :
    processSubset "AFI_w" [audioMismatch] [rowW] false =
      Except.error ProcError.crossValidationError ∧
    writtenFiles (processSubset "AFI_w" [audioMismatch] [rowW] false) = [] :=
  C7_crossvalidation_blocks_writes "AFI_w" [audioMismatch] [rowW] false [segW] rfl
    ⟨segW, List.Mem.head _, by decide⟩

/-- C8: a subset whose rows all decode, reference only recordings
present in its recording collection, and satisfy the structural
validation conditions (no duplicate ids on either side, every
supervision within its recording and on one of its channels) assembles
successfully: the recording collection has one entry per audio file,
the supervision collection one record per transcript row, and
cross-validation passes. -/
theorem C8_assembly_sizes :
    ∀ (subset : String) (audioFiles : List AudioFile) (transcript : List (List String))
      (norm : Bool) (sups : List SupervisionSegment),
      decodeAll (resolveLayout subset) norm transcript = Except.ok sups →
      ((recordingSetOf audioFiles).map Recording.id).Nodup →
      (sups.map SupervisionSegment.id).Nodup →
      (∀ s ∈ sups, ∃ r ∈ recordingSetOf audioFiles, r.id = s.recording_id ∧
        0 ≤ s.start ∧ 0 < s.duration ∧ s.start + s.duration ≤ r.duration ∧
        0 ≤ s.channel ∧ s.channel < (r.channels : Int)) →
      processSubset subset audioFiles transcript norm =
        Except.ok (⟨recordingSetOf audioFiles, sups⟩,
          [supervisionsFileName subset, recordingsFileName subset]) ∧
      (recordingSetOf audioFiles).length = audioFiles.length ∧
      sups.length = transcript.length ∧
      validate_recordings_and_supervisions (recordingSetOf audioFiles) sups =
        Except.ok () := by
  intro subset audioFiles transcript norm sups hdec hnodupR hnodupS hstruct
  have hval : validate_recordings_and_supervisions (recordingSetOf audioFiles) sups =
      Except.ok () := by
    unfold validate_recordings_and_supervisions
    rw [if_pos ⟨hnodupR, hnodupS, hstruct⟩]
  have hlen : (recordingSetOf audioFiles).length = audioFiles.length := by
    unfold recordingSetOf
    rw [List.length_map]
    exact (List.perm_insertionSort _ _).length_eq
  have h1 : processSubset subset audioFiles transcript norm =
      match validate_recordings_and_supervisions (recordingSetOf audioFiles) sups with
      | Except.error e => Except.error e
      | Except.ok _ =>
        Except.ok ((⟨recordingSetOf audioFiles, sups⟩ : SubsetManifests),
          [supervisionsFileName subset, recordingsFileName subset]) := by
    rw [processSubset_eq, hdec]
  have hmain : processSubset subset audioFiles transcript norm =
      Except.ok (⟨recordingSetOf audioFiles, sups⟩,
        [supervisionsFileName subset, recordingsFileName subset]) := by
    rw [h1, hval]
  exact ⟨hmain, hlen, decodeAll_ok_length hdec, hval⟩

/-- Instantiation of C8: a subset with one one-second two-channel audio
file rec1.wav and the one row referencing rec1 (starting at 0, lasting
one second, on channel 0) assembles one recording and one supervision
and validates. -/
theorem C8_assembly_sizes_witness :
    processSubset "AFI_w" [audioMatch] [rowW] false =
      Except.ok (⟨recordingSetOf [audioMatch], [segW]⟩,
        [supervisionsFileName "AFI_w", recordingsFileName "AFI_w"]) ∧
    (recordingSetOf [audioMatch]).length = ([audioMatch] : List AudioFile).length ∧
    ([segW] : List SupervisionSegment).length = ([rowW] : List (List String)).length ∧
    validate_recordings_and_supervisions (recordingSetOf [audioMatch]) [segW] =
      Except.ok () :=
  C8_assembly_sizes "AFI_w" [audioMatch] [rowW] false [segW] rfl
    (by decide) (by decide)
    (by
      intro s hs
      rcases List.mem_singleton.mp hs with rfl
      refine ⟨recordingFromFile audioMatch, List.Mem.head _, rfl, ?_, ?_, ?_, ?_, ?_⟩
      · norm_num [segW, hmsQ]
      · norm_num [segW, natQ]
      · norm_num [segW, hmsQ, natQ, recordingFromFile, audioMatch]
      · norm_num [segW]
      · norm_num [segW, recordingFromFile, audioMatch])

end UniphoreDev
